import Mathlib

/-!
Shallow embedding of the churn-constrained training notebook
(`examples/jupyter/Churn.ipynb`).

Dataframes are modelled as association lists from column names to columns of
rational values; numpy/pandas element-wise arithmetic is modelled positionally
on lists.  Functions that can raise a Python exception are modelled with
`Option` / `Except`.
-/

set_option autoImplicit false

namespace Churn

/-- A pandas dataframe, modelled as an association list from column names to
columns.  Column values are rationals (exact stand-ins for the float scores
and 0/1 labels the notebook manipulates). -/
abbrev DataFrame := List (String × List ℚ)

/-- `df[name]`: the first column with the given name, if any. -/
def getColumn (df : DataFrame) (name : String) : Option (List ℚ) :=
  (df.find? fun p => p.1 = name).map Prod.snd

/-- `df[name] = vals`: pandas column assignment.  Replaces the column in place
when it exists, otherwise appends it as the last column. -/
def setColumn (df : DataFrame) (name : String) (vals : List ℚ) : DataFrame :=
  match df with
  | [] => [(name, vals)]
  | (c, v) :: rest =>
      if c = name then (name, vals) :: rest
      else (c, v) :: setColumn rest name vals

/-- `LABEL_COLUMN` from the notebook. -/
def LABEL_COLUMN : String := "label"

/-- `CHURN_COLUMN` from the notebook. -/
def CHURN_COLUMN : String := "churn_label"

/-- `(labels > 0).astype(np.float32) - (labels <= 0).astype(np.float32)`:
the signed-label vector used by `error_rate`. -/
def signed_labels (labels : List ℚ) : List ℚ :=
  labels.map fun l => (if 0 < l then (1 : ℚ) else 0) - (if l ≤ 0 then (1 : ℚ) else 0)

/-- `error_rate(predictions, labels)` from the notebook: counts positions where
`signed_labels * predictions <= 0` and divides by `predictions.shape[0]`.
The division is unguarded; an empty prediction column raises
`ZeroDivisionError`, modelled as `none`. -/
def error_rate (predictions labels : List ℚ) : Option ℚ :=
  let numerator : ℕ :=
    ((signed_labels labels).zip predictions).countP fun sp => decide (sp.1 * sp.2 ≤ 0)
  if predictions.length = 0 then none
  else some ((numerator : ℚ) / (predictions.length : ℚ))

/-- `_get_error_rate_and_constraints(df, max_churn_rate)` from the notebook:
the error rate of the predictions against the label column, paired with the
error rate against the churn column minus `max_churn_rate`. -/
def get_error_rate_and_constraints (df : DataFrame) (max_churn_rate : ℚ) :
    Option (ℚ × ℚ) :=
  match getColumn df "predictions", getColumn df LABEL_COLUMN, getColumn df CHURN_COLUMN with
  | some preds, some labels, some churn =>
      match error_rate preds labels, error_rate preds churn with
      | some e, some ec => some (e, ec - max_churn_rate)
      | _, _ => none
  | _, _, _ => none

end Churn

namespace Churn

/-- Count, per the spec's words for C1, of rows `i` with
`signed_labels[i] * predictions[i] <= 0` where `signed_labels[i]` is `+1` when
`labels[i] > 0` and `-1` when `labels[i] <= 0`. -/
def specMisclassCount (predictions labels : List ℚ) : ℕ :=
  (predictions.zip labels).countP fun pl =>
    decide ((if 0 < pl.2 then (1 : ℚ) else -1) * pl.1 ≤ 0)

theorem signed_labels_eq (labels : List ℚ) :
    signed_labels labels = labels.map fun l => if 0 < l then (1 : ℚ) else -1 := by
  unfold signed_labels
  refine List.map_congr_left fun l _ => ?_
  rcases lt_or_le 0 l with h | h
  · rw [if_pos h, if_neg (by linarith), if_pos h]
    norm_num
  · rw [if_neg (by linarith), if_pos h, if_neg (by linarith)]
    norm_num

theorem countP_signed_zip (predictions labels : List ℚ) :
    ((signed_labels labels).zip predictions).countP (fun sp => decide (sp.1 * sp.2 ≤ 0)) =
      specMisclassCount predictions labels := by
  rw [signed_labels_eq]
  unfold specMisclassCount
  induction predictions generalizing labels with
  | nil => cases labels <;> simp
  | cons p ps ih =>
      cases labels with
      | nil => simp
      | cons l ls =>
          simp only [List.map_cons, List.zip_cons_cons, List.countP_cons, ih ls]

/-- C1: for non-empty prediction and label columns of a common length `n`,
`error_rate` returns the misclassification count (rows where the signed label
times the prediction is `≤ 0`) divided by `n`. -/
theorem error_rate_is_misclass_fraction (predictions labels : List ℚ) (n : ℕ)
    (hp : predictions.length = n) (hl : labels.length = n) (hn : 1 ≤ n) :
    error_rate predictions labels =
      some ((specMisclassCount predictions labels : ℚ) / (n : ℚ)) := by
  unfold error_rate
  rw [countP_signed_zip, hp, if_neg (by omega)]

/-- Witness for C1 at a concrete input. -/
theorem error_rate_is_misclass_fraction_witness :
    error_rate [(1 : ℚ), -2, 3] [(1 : ℚ), 1, 0] =
      some ((specMisclassCount [(1 : ℚ), -2, 3] [(1 : ℚ), 1, 0] : ℚ) / (3 : ℚ)) :=
  error_rate_is_misclass_fraction [(1 : ℚ), -2, 3] [(1 : ℚ), 1, 0] 3 rfl rfl (by norm_num)

theorem error_rate_of_ne_nil (predictions labels : List ℚ) (h : predictions ≠ []) :
    ∃ q, error_rate predictions labels = some q :=
  ⟨_, by unfold error_rate; rw [if_neg (by simpa using h)]⟩

/-- Count, per the spec's glossary for churn, of examples whose predicted label
flips between the old model (scores in `churn`) and the new model (scores in
`predictions`), a predicted label being positive exactly when the score is
strictly greater than 0. -/
def specChurnFlipCount (predictions churn : List ℚ) : ℕ :=
  (predictions.zip churn).countP fun pc => decide (¬ ((0 < pc.1) ↔ (0 < pc.2)))

/-- Fraction, per the spec's glossary, of examples whose predicted label flips
between the old and the new model. -/
def specChurnFraction (predictions churn : List ℚ) : ℚ :=
  (specChurnFlipCount predictions churn : ℚ) / (predictions.length : ℚ)

theorem flip_iff (p c : ℚ) (hp : p ≠ 0) :
    ((if 0 < c then (1 : ℚ) else -1) * p ≤ 0) ↔ ¬ ((0 < p) ↔ (0 < c)) := by
  split_ifs with hc
  · rw [one_mul]
    simp [iff_true_intro hc, not_lt]
  · rw [neg_one_mul, neg_nonpos]
    simp only [iff_false_intro hc, iff_false, not_not]
    constructor
    · intro h2
      exact lt_of_le_of_ne h2 (Ne.symm hp)
    · exact le_of_lt

theorem countP_signed_zip_flip (predictions churn : List ℚ)
    (hnz : ∀ p ∈ predictions, p ≠ 0) :
    ((signed_labels churn).zip predictions).countP (fun sp => decide (sp.1 * sp.2 ≤ 0)) =
      specChurnFlipCount predictions churn := by
  rw [signed_labels_eq]
  unfold specChurnFlipCount
  induction predictions generalizing churn with
  | nil => cases churn <;> simp
  | cons p ps ih =>
      cases churn with
      | nil => simp
      | cons c cs =>
          have hp : p ≠ 0 := hnz p (List.mem_cons_self p ps)
          have hrest : ∀ q ∈ ps, q ≠ 0 := fun q hq => hnz q (List.mem_cons_of_mem p hq)
          simp only [List.map_cons, List.zip_cons_cons, List.countP_cons, ih cs hrest]
          rw [decide_eq_decide.mpr (flip_iff p c hp)]

/-- C2 counterexample: with a new-model prediction score of exactly 0 and an
old-model score `-1`, neither predicted label is positive (no flip), yet
`error_rate` counts the example, so the churn metric is 1 while the flip
fraction is 0. -/
theorem error_rate_churn_not_flip_fraction :
    error_rate [(0 : ℚ)] [(-1 : ℚ)] ≠
      some (specChurnFraction [(0 : ℚ)] [(-1 : ℚ)]) := by
  have h1 : error_rate [(0 : ℚ)] [(-1 : ℚ)] = some 1 := by
    norm_num [error_rate, signed_labels, List.countP_cons]
  have h2 : specChurnFraction [(0 : ℚ)] [(-1 : ℚ)] = 0 := by
    norm_num [specChurnFraction, specChurnFlipCount, List.countP_cons]
  rw [h1, h2]
  simp

/-- C2 (amended): provided every new-model prediction score is nonzero, the
churn metric `error_rate(predictions, churn_label)` equals the fraction of
examples whose predicted label flips between the old and the new model. -/
theorem error_rate_churn_flip_fraction (predictions churn : List ℚ) (n : ℕ)
    (hp : predictions.length = n) (hc : churn.length = n) (hn : 1 ≤ n)
    (hnz : ∀ p ∈ predictions, p ≠ 0) :
    error_rate predictions churn = some (specChurnFraction predictions churn) := by
  unfold error_rate specChurnFraction
  rw [countP_signed_zip_flip predictions churn hnz, if_neg (by omega)]

/-- Witness for the amended C2 at a concrete input. -/
theorem error_rate_churn_flip_fraction_witness :
    error_rate [(1 : ℚ), -2] [(-1 : ℚ), 3] =
      some (specChurnFraction [(1 : ℚ), -2] [(-1 : ℚ), 3]) :=
  error_rate_churn_flip_fraction [(1 : ℚ), -2] [(-1 : ℚ), 3] 2 rfl rfl (by norm_num)
    (by intro p hp; fin_cases hp <;> norm_num)

/-- C3: the second component of `_get_error_rate_and_constraints(df,
max_churn_rate)` is the observed churn rate (error rate of the predictions
against the churn column) minus the configured maximum allowed churn rate. -/
theorem get_error_rate_and_constraints_violation (df : DataFrame) (m : ℚ)
    (preds labels churn : List ℚ)
    (h1 : getColumn df "predictions" = some preds)
    (h2 : getColumn df LABEL_COLUMN = some labels)
    (h3 : getColumn df CHURN_COLUMN = some churn)
    (hne : preds ≠ []) :
    ∃ e ec, error_rate preds churn = some ec ∧
      get_error_rate_and_constraints df m = some (e, ec - m) := by
  obtain ⟨e, he⟩ := error_rate_of_ne_nil preds labels hne
  obtain ⟨ec, hec⟩ := error_rate_of_ne_nil preds churn hne
  refine ⟨e, ec, hec, ?_⟩
  unfold get_error_rate_and_constraints
  rw [h1, h2, h3]
  simp only [he, hec]

/-- Witness for C3 at a concrete dataframe. -/
theorem get_error_rate_and_constraints_violation_witness :
    ∃ e ec, error_rate [(1 : ℚ)] [(1 : ℚ)] = some ec ∧
      get_error_rate_and_constraints
        [("predictions", [(1 : ℚ)]), ("label", [(1 : ℚ)]), ("churn_label", [(1 : ℚ)])]
        (1 / 20) = some (e, ec - 1 / 20) :=
  get_error_rate_and_constraints_violation
    [("predictions", [(1 : ℚ)]), ("label", [(1 : ℚ)]), ("churn_label", [(1 : ℚ)])]
    (1 / 20) [(1 : ℚ)] [(1 : ℚ)] [(1 : ℚ)] (by decide) (by decide) (by decide) (by simp)

/-- C9: `error_rate` divides by `predictions.shape[0]` with no guard: it
returns a value exactly when the prediction column is non-empty, and on an
empty prediction column it raises `ZeroDivisionError` (modelled as `none`). -/
theorem error_rate_division_guard (predictions labels : List ℚ) :
    (predictions ≠ [] → ∃ q, error_rate predictions labels = some q) ∧
      (predictions = [] → error_rate predictions labels = none) := by
  constructor
  · intro h
    exact ⟨_, by unfold error_rate; rw [if_neg (by simpa using h)]⟩
  · intro h
    subst h
    rfl

/-- Witness for C9 at concrete inputs. -/
theorem error_rate_division_guard_witness :
    (∃ q, error_rate [(1 : ℚ)] [(1 : ℚ)] = some q) ∧
      error_rate ([] : List ℚ) [(1 : ℚ)] = none :=
  ⟨(error_rate_division_guard [(1 : ℚ)] [(1 : ℚ)]).1 (by simp),
   (error_rate_division_guard ([] : List ℚ) [(1 : ℚ)]).2 rfl⟩

/-- Activation argument of a `tf.layers.dense` call: `tf.nn.relu` or `None`
(a linear layer). -/
inductive Activation where
  | relu
  | linear
  deriving DecidableEq

/-- A symbolic TensorFlow graph tensor, as built by the notebook: a named
placeholder or the output of a dense layer applied to an input tensor. -/
inductive TFTensor where
  | placeholder (name : String)
  | dense (units : ℕ) (activation : Activation) (input : TFTensor)
  deriving DecidableEq

/-- Python truthiness of the optional `hidden_units` argument: `None` and `0`
are falsy, every other integer is truthy. -/
def pyTruthy : Option ℕ → Bool
  | none => false
  | some u => u != 0

/-- `_construct_model(input_tensor, hidden_units)` from the notebook: an
optional hidden ReLU dense layer (when `hidden_units` is truthy) followed by a
1-unit linear dense layer. -/
def construct_model (input_tensor : TFTensor) (hidden_units : Option ℕ) : TFTensor :=
  let hidden :=
    if pyTruthy hidden_units then
      TFTensor.dense (hidden_units.getD 0) Activation.relu input_tensor
    else input_tensor
  TFTensor.dense 1 Activation.linear hidden

/-- A `tfco.rate_context(predictions, labels)` value: a pair of the
predictions tensor and the labels tensor. -/
structure RateContext where
  predictions : TFTensor
  labels : TFTensor
  deriving DecidableEq

/-- A symbolic rate expression of the tfco library, as used by the notebook:
`tfco.error_rate(context)`. -/
inductive RateExpr where
  | error_rate (ctx : RateContext)
  deriving DecidableEq

/-- A rate constraint `expr <= bound`, as produced by comparing a tfco rate
expression with a scalar. -/
structure RateConstraint where
  lhs : RateExpr
  bound : ℚ
  deriving DecidableEq

/-- A `tfco.RateMinimizationProblem(objective, constraints)` value. -/
structure RateMinimizationProblem where
  objective : RateExpr
  constraints : List RateConstraint
  deriving DecidableEq

/-- The `Model` class of the notebook: its constructor arguments together with
the placeholders it creates.  The tensors are symbolic. -/
structure Model where
  hidden_units : Option ℕ
  max_churn_rate : ℚ

/-- `self.features_placeholder`. -/
def Model.features_placeholder (_ : Model) : TFTensor :=
  TFTensor.placeholder "features_placeholder"

/-- `self.labels_placeholder`. -/
def Model.labels_placeholder (_ : Model) : TFTensor :=
  TFTensor.placeholder "labels_placeholder"

/-- `self.churn_placeholder`. -/
def Model.churn_placeholder (_ : Model) : TFTensor :=
  TFTensor.placeholder "churn_placeholder"

/-- `self.predictions_tensor = _construct_model(self.features_placeholder,
hidden_units=hidden_units)`. -/
def Model.predictions_tensor (m : Model) : TFTensor :=
  construct_model m.features_placeholder m.hidden_units

/-- `Model.build_train_op(learning_rate, train_with_churn)`: the
`RateMinimizationProblem` the notebook hands to the Lagrangian optimizer.
The learning rate only parameterizes the external Adam optimizer, not the
problem. -/
def Model.build_train_op (m : Model) (learning_rate : ℚ) (train_with_churn : Bool) :
    RateMinimizationProblem :=
  let ctx := RateContext.mk m.predictions_tensor m.labels_placeholder
  let ctx_churn := RateContext.mk m.predictions_tensor m.churn_placeholder
  let constraints :=
    if train_with_churn then [RateConstraint.mk (RateExpr.error_rate ctx_churn) m.max_churn_rate]
    else []
  RateMinimizationProblem.mk (RateExpr.error_rate ctx) constraints

/-- C7: `_construct_model` builds 0 or 1 hidden layers: with a non-zero
`hidden_units` the output is a 1-unit linear dense layer over a ReLU dense
layer of `hidden_units` units over the input; with `hidden_units = None` the
1-unit linear dense layer is applied directly to the input. -/
theorem construct_model_layers (input_tensor : TFTensor) (u : ℕ) :
    (u ≠ 0 →
      construct_model input_tensor (some u) =
        TFTensor.dense 1 Activation.linear
          (TFTensor.dense u Activation.relu input_tensor)) ∧
      construct_model input_tensor none =
        TFTensor.dense 1 Activation.linear input_tensor := by
  constructor
  · intro hu
    unfold construct_model
    rw [if_pos (by simpa [pyTruthy] using hu)]
    rfl
  · rfl

/-- Witness for C7 at concrete inputs. -/
theorem construct_model_layers_witness :
    construct_model (TFTensor.placeholder "features_placeholder") (some 10) =
      TFTensor.dense 1 Activation.linear
        (TFTensor.dense 10 Activation.relu (TFTensor.placeholder "features_placeholder")) :=
  (construct_model_layers (TFTensor.placeholder "features_placeholder") 10).1 (by norm_num)

/-- C4: `build_train_op` minimizes the error rate over the labels context; its
constraint list is exactly the single churn-rate bound when `train_with_churn`
is true and empty when it is false, for every learning rate. -/
theorem build_train_op_problem (m : Model) (learning_rate : ℚ) (b : Bool) :
    (m.build_train_op learning_rate b).objective =
      RateExpr.error_rate (RateContext.mk m.predictions_tensor m.labels_placeholder) ∧
      (b = true →
        (m.build_train_op learning_rate b).constraints =
          [RateConstraint.mk
            (RateExpr.error_rate (RateContext.mk m.predictions_tensor m.churn_placeholder))
            m.max_churn_rate]) ∧
      (b = false → (m.build_train_op learning_rate b).constraints = []) := by
  refine ⟨rfl, ?_, ?_⟩ <;> intro hb <;> subst hb <;> rfl

/-- Witness for C4 at a concrete model and learning rate. -/
theorem build_train_op_problem_witness :
    ((Model.mk (some 10) (1 / 20)).build_train_op (1 / 100) true).objective =
      RateExpr.error_rate
        (RateContext.mk (Model.mk (some 10) (1 / 20)).predictions_tensor
          (Model.mk (some 10) (1 / 20)).labels_placeholder) ∧
      ((Model.mk (some 10) (1 / 20)).build_train_op (1 / 100) true).constraints =
        [RateConstraint.mk
          (RateExpr.error_rate
            (RateContext.mk (Model.mk (some 10) (1 / 20)).predictions_tensor
              (Model.mk (some 10) (1 / 20)).churn_placeholder))
          (1 / 20)] :=
  ⟨(build_train_op_problem (Model.mk (some 10) (1 / 20)) (1 / 100) true).1,
   (build_train_op_problem (Model.mk (some 10) (1 / 20)) (1 / 100) true).2.1 rfl⟩

/-- One pass of the inner `while` loop of `training_generator`: computes
`minibatch_end_index = minibatch_start_index + minibatch_size -
len(minibatch_indices)` and either appends `range(start, num_rows)` and wraps
the start to 0, or appends `range(start, end)` and advances the start. -/
def gatherStep (num_rows minibatch_size minibatch_start_index : ℕ)
    (minibatch_indices : List ℕ) : List ℕ × ℕ :=
  let minibatch_end_index :=
    minibatch_start_index + minibatch_size - minibatch_indices.length
  if num_rows ≤ minibatch_end_index then
    (minibatch_indices ++ List.range' minibatch_start_index (num_rows - minibatch_start_index), 0)
  else
    (minibatch_indices ++
       List.range' minibatch_start_index (minibatch_end_index - minibatch_start_index),
     minibatch_end_index)

/-- The inner `while len(minibatch_indices) < minibatch_size` loop of
`training_generator`, with explicit fuel; `none` means the fuel was exhausted
before the loop condition became false. -/
def gatherLoop (num_rows minibatch_size : ℕ) :
    ℕ → List ℕ → ℕ → Option (List ℕ × ℕ)
  | 0, minibatch_indices, minibatch_start_index =>
      if minibatch_indices.length < minibatch_size then none
      else some (minibatch_indices, minibatch_start_index)
  | fuel + 1, minibatch_indices, minibatch_start_index =>
      if minibatch_indices.length < minibatch_size then
        gatherLoop num_rows minibatch_size fuel
          (gatherStep num_rows minibatch_size minibatch_start_index minibatch_indices).1
          (gatherStep num_rows minibatch_size minibatch_start_index minibatch_indices).2
      else some (minibatch_indices, minibatch_start_index)

/-- One training iteration's index gathering in `training_generator`, after
the clamp `minibatch_size = min(minibatch_size, num_rows)`, starting from
`minibatch_indices = []`.  The clamped minibatch size is enough fuel because
every pass adds at least one index. -/
def gatherMinibatch (num_rows minibatch_size minibatch_start_index : ℕ) :
    Option (List ℕ × ℕ) :=
  gatherLoop num_rows (min minibatch_size num_rows) (min minibatch_size num_rows)
    [] minibatch_start_index

theorem gatherLoop_done (num_rows mbs fuel : ℕ) (ind : List ℕ) (s : ℕ)
    (h : ¬ ind.length < mbs) : gatherLoop num_rows mbs fuel ind s = some (ind, s) := by
  cases fuel <;> simp only [gatherLoop, if_neg h]

theorem gatherLoop_run (num_rows m start : ℕ)
    (hm1 : 1 ≤ m) (hmn : m ≤ num_rows) (hs : start < num_rows) :
    gatherLoop num_rows m m [] start =
      some ((List.range m).map fun i => (start + i) % num_rows,
            (start + m) % num_rows) := by
  obtain ⟨f, rfl⟩ : ∃ f, m = f + 1 := ⟨m - 1, by omega⟩
  rw [gatherLoop, if_pos (by simp)]
  by_cases hA : num_rows ≤ start + (f + 1)
  · have hstep :
        gatherStep num_rows (f + 1) start [] =
          (List.range' start (num_rows - start), 0) := by
      unfold gatherStep
      rw [if_pos (by simpa using hA)]
      simp
    rw [hstep]
    have hlen1 : (List.range' start (num_rows - start)).length = num_rows - start :=
      List.length_range' start 1 (num_rows - start)
    by_cases hA1 : num_rows - start < f + 1
    · -- a second pass is needed; it takes the else branch
      obtain ⟨g, rfl⟩ : ∃ g, f = g + 1 := ⟨f - 1, by omega⟩
      rw [gatherLoop, if_pos (by rw [hlen1]; omega)]
      have he2 : 0 + (g + 1 + 1) - (List.range' start (num_rows - start)).length =
          start + (g + 1 + 1) - num_rows := by
        rw [hlen1]; omega
      have hstep2 :
          gatherStep num_rows (g + 1 + 1) 0 (List.range' start (num_rows - start)) =
            (List.range' start (num_rows - start) ++
               List.range' 0 (start + (g + 1 + 1) - num_rows),
             start + (g + 1 + 1) - num_rows) := by
        unfold gatherStep
        rw [he2, if_neg (by omega)]
        simp
      rw [hstep2]
      rw [gatherLoop_done _ _ _ _ _ (by simp [hlen1, List.length_range']; omega)]
      simp only [Option.some.injEq, Prod.mk.injEq]
      constructor
      · refine List.ext_getElem (by simp [List.length_range']; omega)
          fun i h1 h2 => ?_
        simp only [List.length_append, List.length_range'] at h1
        simp only [List.length_map, List.length_range] at h2
        simp only [List.getElem_map, List.getElem_range]
        by_cases hi : i < num_rows - start
        · rw [List.getElem_append_left (by rw [hlen1]; omega),
            List.getElem_range'_1 i (by rw [hlen1]; omega),
            Nat.mod_eq_of_lt (by omega)]
        · rw [List.getElem_append_right (by rw [hlen1]; omega),
            List.getElem_range'_1 _ (by simp [List.length_range']; omega),
            Nat.mod_eq_sub_mod (by omega), Nat.mod_eq_of_lt (by omega), hlen1]
          omega
      · rw [Nat.mod_eq_sub_mod (by omega), Nat.mod_eq_of_lt (by omega)]
    · -- the first pass already gathered the whole minibatch
      rw [gatherLoop_done _ _ _ _ _ (by rw [hlen1]; omega)]
      simp only [Option.some.injEq, Prod.mk.injEq]
      constructor
      · refine List.ext_getElem (by simp [List.length_range']; omega)
          fun i h1 h2 => ?_
        simp only [List.length_range'] at h1
        simp only [List.getElem_map, List.getElem_range]
        rw [List.getElem_range'_1 i (by rw [hlen1]; omega),
          Nat.mod_eq_of_lt (by omega)]
      · rw [Nat.mod_eq_sub_mod (by omega), Nat.mod_eq_of_lt (by omega)]
        omega
  · -- no wrap: a single pass takes the else branch and finishes
    have hstep :
        gatherStep num_rows (f + 1) start [] =
          (List.range' start (f + 1), start + (f + 1)) := by
      unfold gatherStep
      rw [if_neg (by simpa using hA)]
      simp
    rw [hstep]
    rw [gatherLoop_done _ _ _ _ _ (by simp [List.length_range'])]
    simp only [Option.some.injEq, Prod.mk.injEq]
    constructor
    · refine List.ext_getElem (by simp [List.length_range']) fun i h1 h2 => ?_
      simp only [List.length_range'] at h1
      simp only [List.getElem_map, List.getElem_range]
      rw [List.getElem_range'_1 i (by simp [List.length_range']; omega),
        Nat.mod_eq_of_lt (by omega)]
    · rw [Nat.mod_eq_of_lt (by omega)]

theorem gatherMinibatch_run (num_rows mbs start : ℕ)
    (hn : 1 ≤ num_rows) (hm : 1 ≤ mbs) (hs : start < num_rows) :
    gatherMinibatch num_rows mbs start =
      some ((List.range (min mbs num_rows)).map fun i => (start + i) % num_rows,
            (start + min mbs num_rows) % num_rows) :=
  gatherLoop_run num_rows (min mbs num_rows) start (le_min hm hn)
    (min_le_right mbs num_rows) hs

/-- C5: after the clamp `minibatch_size = min(minibatch_size, num_rows)`, each
training iteration gathers exactly `min(minibatch_size, num_rows)` index
positions, consecutive modulo `num_rows` from the current start (wrapping to
position 0 at the end of the dataset), and the start advances by the clamped
minibatch size, modulo the wraparound. -/
theorem training_generator_minibatch_cyclic (num_rows mbs start : ℕ)
    (hn : 1 ≤ num_rows) (hm : 1 ≤ mbs) (hs : start < num_rows) :
    ∃ indices : List ℕ,
      gatherMinibatch num_rows mbs start =
        some (indices, (start + min mbs num_rows) % num_rows) ∧
      indices.length = min mbs num_rows ∧
      ∀ (i : ℕ) (h : i < indices.length), indices[i] = (start + i) % num_rows := by
  refine ⟨(List.range (min mbs num_rows)).map fun i => (start + i) % num_rows,
    gatherMinibatch_run num_rows mbs start hn hm hs, by simp, fun i h => ?_⟩
  simp only [List.getElem_map, List.getElem_range]

/-- Witness for C5 at concrete inputs (5 rows, minibatch size 3, start 4:
the minibatch wraps around the end of the dataset). -/
theorem training_generator_minibatch_cyclic_witness :
    ∃ indices : List ℕ,
      gatherMinibatch 5 3 4 = some (indices, (4 + min 3 5) % 5) ∧
      indices.length = min 3 5 ∧
      ∀ (i : ℕ) (h : i < indices.length), indices[i] = (4 + i) % 5 :=
  training_generator_minibatch_cyclic 5 3 4 (by norm_num) (by norm_num) (by norm_num)

/-- C10: thanks to the clamp `minibatch_size = min(minibatch_size, num_rows)`,
every pass of the inner `while` loop strictly lengthens the index list, and
the loop terminates (the fuel-indexed loop returns a value) for every
`num_rows ≥ 1` and requested `minibatch_size ≥ 1`. -/
theorem training_generator_loop_terminates (num_rows mbs start : ℕ)
    (hn : 1 ≤ num_rows) (hm : 1 ≤ mbs) (hs : start < num_rows) :
    (∀ (s : ℕ) (ind : List ℕ), s < num_rows → ind.length < min mbs num_rows →
      ind.length < (gatherStep num_rows (min mbs num_rows) s ind).1.length) ∧
      (gatherMinibatch num_rows mbs start).isSome := by
  constructor
  · intro s ind hs' hlt
    simp only [gatherStep]
    split <;>
      · simp only [List.length_append, List.length_range']
        omega
  · rw [gatherMinibatch_run num_rows mbs start hn hm hs]
    rfl

/-- Witness for C10 at concrete inputs. -/
theorem training_generator_loop_terminates_witness :
    (∀ (s : ℕ) (ind : List ℕ), s < 5 → ind.length < min 3 5 →
      ind.length < (gatherStep 5 (min 3 5) s ind).1.length) ∧
      (gatherMinibatch 5 3 4).isSome :=
  training_generator_loop_terminates 5 3 4 (by norm_num) (by norm_num) (by norm_num)

/-- `set(a.columns) - set(b.columns)` on column-name lists. -/
def colDiff (a b : List String) : List String :=
  a.filter fun c => !(b.contains c)

/-- The body `input_df[c] = 0` iterated over `missing`: appends each column
not already present. -/
def addCols (cols missing : List String) : List String :=
  missing.foldl (fun acc c => if acc.contains c then acc else acc ++ [c]) cols

/-- `df[sel]` column selection: the selected columns, or a pandas `KeyError`
when a requested column is missing from the dataframe. -/
def selectCols (df sel : List String) : Except String (List String) :=
  if sel.all fun c => df.contains c then Except.ok sel else Except.error "KeyError"

/-- The second loop of `fix_columns` as written in this notebook: for each
`c` in `train_df_missing_cols`, do `input_train_df[c] = 0` and then (inside
the loop) `input_train_df = input_train_df[input_test_df.columns]`. -/
def fixLoop (testCols : List String) :
    List String → List String → Except String (List String)
  | train, [] => Except.ok train
  | train, c :: rest =>
      let train1 := if train.contains c then train else train ++ [c]
      match selectCols train1 testCols with
      | Except.ok train2 => fixLoop testCols train2 rest
      | Except.error e => Except.error e

/-- `fix_columns(input_train_df, input_test_df)` as written in this notebook,
at the level of column-name lists.  The assignment
`train_df_missing_cols = set(input_test_df.columns) - set(input_train_df.columns)`
sits inside the loop over `test_df_missing_cols`, so when that loop never runs
the second loop reads an unbound local (Python `UnboundLocalError`); the
reordering selection `input_train_df = input_train_df[input_test_df.columns]`
sits inside the second loop, so it can run while some of the test columns are
still missing from the train frame (pandas `KeyError`). -/
def fix_columns (trainCols testCols : List String) :
    Except String (List String × List String) :=
  let test_df_missing_cols := colDiff trainCols testCols
  let testCols2 := addCols testCols test_df_missing_cols
  if test_df_missing_cols.isEmpty then Except.error "UnboundLocalError"
  else
    let train_df_missing_cols := colDiff testCols2 trainCols
    match fixLoop testCols2 trainCols train_df_missing_cols with
    | Except.ok train2 => Except.ok (train2, testCols2)
    | Except.error e => Except.error e

/-- `binarize_categorical_columns(input_train_df, input_test_df,
categorical_columns)` at the level of column-name lists, with the external
`pd.get_dummies` call abstracted as a column transformation `dummies`
(`dummies = id` corresponds to `categorical_columns=[]`). -/
def binarize_categorical_columns (dummies : List String → List String)
    (trainCols testCols : List String) : Except String (List String × List String) :=
  fix_columns (dummies trainCols) (dummies testCols)

/-- C6 failing input: on train and test dataframes with identical columns
(here a single column `x`, with no categorical columns to binarize),
`binarize_categorical_columns` raises `UnboundLocalError` instead of
returning normally, because the loop that would bind `train_df_missing_cols`
never runs. -/
theorem binarize_identical_columns_raises :
    binarize_categorical_columns id ["x"] ["x"] =
      Except.error "UnboundLocalError" := rfl

theorem getColumn_setColumn_same (df : DataFrame) (name : String) (vals : List ℚ) :
    getColumn (setColumn df name vals) name = some vals := by
  induction df with
  | nil => simp [setColumn, getColumn]
  | cons p rest ih =>
      obtain ⟨c, v⟩ := p
      by_cases h : c = name
      · subst h
        simp [setColumn, getColumn]
      · simp only [setColumn, if_neg h]
        simpa [getColumn, List.find?, h] using ih

theorem getColumn_setColumn_other (df : DataFrame) (name other : String)
    (vals : List ℚ) (h : other ≠ name) :
    getColumn (setColumn df name vals) other = getColumn df other := by
  induction df with
  | nil => simp [setColumn, getColumn, Ne.symm h]
  | cons p rest ih =>
      obtain ⟨c, v⟩ := p
      by_cases hc : c = name
      · subst hc
        simp [setColumn, getColumn, List.find?, Ne.symm h]
      · simp only [setColumn, if_neg hc]
        by_cases ho : c = other
        · subst ho
          simp [getColumn, List.find?]
        · simpa [getColumn, List.find?, ho] using ih

/-- `training_helper`, with the external session loop (the values yielded by
`training_generator`) abstracted as the list of
`(train_predictions, test_predictions)` pairs.  Each iteration writes the
current predictions into the `predictions` column of both caller dataframes
in place and appends the error and constraint metrics.  Returns the four
metric vectors of the notebook together with the final state of the two
mutated dataframes; `none` models a raised exception. -/
def training_helper (max_churn_rate : ℚ) :
    List (List ℚ × List ℚ) → DataFrame → DataFrame →
      Option (List ℚ × List ℚ × List ℚ × List ℚ × DataFrame × DataFrame)
  | [], train_df, test_df => some ([], [], [], [], train_df, test_df)
  | (train, test) :: rest, train_df, test_df =>
      match get_error_rate_and_constraints (setColumn train_df "predictions" train)
              max_churn_rate,
            get_error_rate_and_constraints (setColumn test_df "predictions" test)
              max_churn_rate with
      | some (tre, trc), some (tee, tec) =>
          match training_helper max_churn_rate rest
              (setColumn train_df "predictions" train)
              (setColumn test_df "predictions" test) with
          | some (v1, v2, v3, v4, ftr, fte) =>
              some (tre :: v1, trc :: v2, tee :: v3, tec :: v4, ftr, fte)
          | none => none
      | _, _ => none

/-- C8: `training_helper` mutates the caller dataframes in place: when it
returns, the `predictions` column of both final dataframes holds the
predictions of the last loop iteration, and every other column of the two
dataframes is unchanged. -/
theorem training_helper_frame_effect (max_churn_rate : ℚ)
    (yields : List (List ℚ × List ℚ)) (train_df test_df : DataFrame)
    (out : List ℚ × List ℚ × List ℚ × List ℚ × DataFrame × DataFrame)
    (h : training_helper max_churn_rate yields train_df test_df = some out) :
    (∀ c : String, c ≠ "predictions" →
      getColumn out.2.2.2.2.1 c = getColumn train_df c ∧
      getColumn out.2.2.2.2.2 c = getColumn test_df c) ∧
    ∀ last, yields.getLast? = some last →
      getColumn out.2.2.2.2.1 "predictions" = some last.1 ∧
      getColumn out.2.2.2.2.2 "predictions" = some last.2 := by
  induction yields generalizing train_df test_df out with
  | nil =>
      rw [training_helper] at h
      obtain rfl : out = ([], [], [], [], train_df, test_df) := by
        simpa using h.symm
      refine ⟨fun c hc => ⟨rfl, rfl⟩, fun last hlast => ?_⟩
      simp at hlast
  | cons y rest ih =>
      obtain ⟨train, test⟩ := y
      rw [training_helper] at h
      split at h
      · rename_i tre trc tee tec hm1 hm2
        split at h
        · rename_i w1 w2 w3 w4 gtr gte hrec
          simp only [Option.some.injEq] at h
          subst h
          have ihres := ih (setColumn train_df "predictions" train)
            (setColumn test_df "predictions" test) (w1, w2, w3, w4, gtr, gte) hrec
          constructor
          · intro c hc
            obtain ⟨hA, hB⟩ := ihres.1 c hc
            exact ⟨hA.trans (getColumn_setColumn_other train_df "predictions" c train hc),
              hB.trans (getColumn_setColumn_other test_df "predictions" c test hc)⟩
          · intro last hlast
            cases rest with
            | nil =>
                rw [training_helper] at hrec
                simp only [Option.some.injEq, Prod.mk.injEq] at hrec
                obtain ⟨-, -, -, -, h5, h6⟩ := hrec
                have hlast2 : last = (train, test) := by
                  simpa using hlast.symm
                subst hlast2
                exact ⟨h5 ▸ getColumn_setColumn_same train_df "predictions" train,
                  h6 ▸ getColumn_setColumn_same test_df "predictions" test⟩
            | cons z zs =>
                exact ihres.2 last (by rwa [List.getLast?_cons_cons] at hlast)
        · exact absurd h (by simp)
      · exact absurd h (by simp)

/-- Witness for C8 on a concrete one-iteration run. -/
theorem training_helper_frame_effect_witness :
    (∀ c : String, c ≠ "predictions" →
      getColumn ([("label", [(1 : ℚ)]), ("churn_label", [(1 : ℚ)]),
          ("predictions", [(1 : ℚ)])]) c =
        getColumn ([("label", [(1 : ℚ)]), ("churn_label", [(1 : ℚ)])]) c ∧
      getColumn ([("label", [(0 : ℚ)]), ("churn_label", [(0 : ℚ)]),
          ("predictions", [(-1 : ℚ)])]) c =
        getColumn ([("label", [(0 : ℚ)]), ("churn_label", [(0 : ℚ)])]) c) ∧
    ∀ last : List ℚ × List ℚ,
      ([([(1 : ℚ)], [(-1 : ℚ)])].getLast? = some last) →
      getColumn ([("label", [(1 : ℚ)]), ("churn_label", [(1 : ℚ)]),
          ("predictions", [(1 : ℚ)])]) "predictions" = some last.1 ∧
      getColumn ([("label", [(0 : ℚ)]), ("churn_label", [(0 : ℚ)]),
          ("predictions", [(-1 : ℚ)])]) "predictions" = some last.2 :=
  training_helper_frame_effect (1 / 20)
    [([(1 : ℚ)], [(-1 : ℚ)])]
    [("label", [(1 : ℚ)]), ("churn_label", [(1 : ℚ)])]
    [("label", [(0 : ℚ)]), ("churn_label", [(0 : ℚ)])]
    ([0], [0 - 1 / 20], [0], [0 - 1 / 20],
     [("label", [(1 : ℚ)]), ("churn_label", [(1 : ℚ)]), ("predictions", [(1 : ℚ)])],
     [("label", [(0 : ℚ)]), ("churn_label", [(0 : ℚ)]), ("predictions", [(-1 : ℚ)])])
    (by
      rw [training_helper]
      have hset1 :
          setColumn [("label", [(1 : ℚ)]), ("churn_label", [(1 : ℚ)])]
            "predictions" [(1 : ℚ)] =
          [("label", [(1 : ℚ)]), ("churn_label", [(1 : ℚ)]),
           ("predictions", [(1 : ℚ)])] := by
        simp [setColumn]
      have hset2 :
          setColumn [("label", [(0 : ℚ)]), ("churn_label", [(0 : ℚ)])]
            "predictions" [(-1 : ℚ)] =
          [("label", [(0 : ℚ)]), ("churn_label", [(0 : ℚ)]),
           ("predictions", [(-1 : ℚ)])] := by
        simp [setColumn]
      rw [hset1, hset2]
      have her1 : error_rate [(1 : ℚ)] [(1 : ℚ)] = some 0 := by
        norm_num [error_rate, signed_labels, List.countP_cons]
      have her2 : error_rate [(-1 : ℚ)] [(0 : ℚ)] = some 0 := by
        norm_num [error_rate, signed_labels, List.countP_cons]
      have hm1 :
          get_error_rate_and_constraints
            [("label", [(1 : ℚ)]), ("churn_label", [(1 : ℚ)]),
             ("predictions", [(1 : ℚ)])] (1 / 20) = some (0, 0 - 1 / 20) := by
        have hgp : getColumn
            [("label", [(1 : ℚ)]), ("churn_label", [(1 : ℚ)]),
             ("predictions", [(1 : ℚ)])] "predictions" = some [(1 : ℚ)] := rfl
        have hgl : getColumn
            [("label", [(1 : ℚ)]), ("churn_label", [(1 : ℚ)]),
             ("predictions", [(1 : ℚ)])] LABEL_COLUMN = some [(1 : ℚ)] := rfl
        have hgc : getColumn
            [("label", [(1 : ℚ)]), ("churn_label", [(1 : ℚ)]),
             ("predictions", [(1 : ℚ)])] CHURN_COLUMN = some [(1 : ℚ)] := rfl
        simp only [get_error_rate_and_constraints, hgp, hgl, hgc, her1]
      have hm2 :
          get_error_rate_and_constraints
            [("label", [(0 : ℚ)]), ("churn_label", [(0 : ℚ)]),
             ("predictions", [(-1 : ℚ)])] (1 / 20) = some (0, 0 - 1 / 20) := by
        have hgp : getColumn
            [("label", [(0 : ℚ)]), ("churn_label", [(0 : ℚ)]),
             ("predictions", [(-1 : ℚ)])] "predictions" = some [(-1 : ℚ)] := rfl
        have hgl : getColumn
            [("label", [(0 : ℚ)]), ("churn_label", [(0 : ℚ)]),
             ("predictions", [(-1 : ℚ)])] LABEL_COLUMN = some [(0 : ℚ)] := rfl
        have hgc : getColumn
            [("label", [(0 : ℚ)]), ("churn_label", [(0 : ℚ)]),
             ("predictions", [(-1 : ℚ)])] CHURN_COLUMN = some [(0 : ℚ)] := rfl
        simp only [get_error_rate_and_constraints, hgp, hgl, hgc, her2]
      simp only [hm1, hm2, training_helper])

end Churn
